import Mathlib

/-
  Shallow embedding of the offline-caching / retry HTTP client of
  src/frontend/src/App.js (the axios instance with its request and response
  interceptors) and of the browser-storage accessors of
  src/frontend/src/lib/utils.js.

  Modelling conventions:
  * localStorage / sessionStorage are association lists from string keys to
    stored values.  A stored value is either a raw string (the token, the
    JSON-serialized user) or a cache entry (the JSON object
    with data and timestamp fields written by the response interceptor).
    JSON.stringify / JSON.parse are modelled as the identity on
    JSON-representable payloads, so a cache entry is stored structurally.
  * `avail = false` models storage being unavailable (private browsing,
    quota exceeded): every storage access throws.  The utils.js accessors
    wrap accesses in try/catch; the cache read inside the request
    interceptor does not.
  * navigator.onLine, the isMobile() user-agent test and Date.now() are
    environment inputs, fixed for the duration of one logical request.
  * The network is a function from the attempt index to the dispatch
    outcome: either a fulfilled axios response (2xx) or an axios error.
-/

/-- A value held in a browser storage area: a raw string, or a cache entry
written by the HTTP client (`\x7bdata, timestamp\x7d` serialized as JSON). -/
inductive StVal where
  | s (v : String)
  | entry (data : String) (timestamp : Nat)
deriving DecidableEq, Repr

/-- The JSON text a raw `getItem` would return for a stored value.  Only the
`s` case is ever observed in runs of the client: cache-entry values live
under `api-cache-` keys, which the raw-string getters never read. -/
def StVal.asString : StVal → String
  | .s v => v
  | .entry d ts => "\x7b\x22data\x22:" ++ d ++ ",\x22timestamp\x22:" ++ toString ts ++ "\x7d"

/-- One browser storage area (localStorage or sessionStorage). -/
abbrev Store := List (String × StVal)

/-- `getItem`: first binding for the key, `none` models a null result. -/
def Store.get? : Store → String → Option StVal
  | [], _ => none
  | (k', v) :: rest, k => if k' = k then some v else Store.get? rest k

/-- `removeItem`. -/
def Store.del : Store → String → Store
  | [], _ => []
  | (k', v) :: rest, k =>
      if k' = k then Store.del rest k else (k', v) :: Store.del rest k

/-- `setItem`: overwrite any previous binding for the key. -/
def Store.set (st : Store) (k : String) (v : StVal) : Store :=
  (k, v) :: st.del k

/-- `getItem` as the string the caller sees. -/
def Store.getStr (st : Store) (k : String) : Option String :=
  (st.get? k).map StVal.asString

theorem Store.get?_del_same (st : Store) (k : String) : (st.del k).get? k = none := by
  induction st with
  | nil => rfl
  | cons p rest ih =>
      obtain ⟨k', v⟩ := p
      by_cases h : k' = k <;> simp [Store.del, Store.get?, h, ih]

theorem Store.get?_del_ne (st : Store) (k k' : String) (h : k' ≠ k) :
    (st.del k).get? k' = st.get? k' := by
  induction st with
  | nil => rfl
  | cons p rest ih =>
      obtain ⟨k₀, v⟩ := p
      by_cases h0 : k₀ = k
      · subst h0
        simp [Store.del, Store.get?, Ne.symm h, ih]
      · by_cases h1 : k₀ = k' <;> simp [Store.del, Store.get?, h0, h1, h, ih]

theorem Store.get?_set_same (st : Store) (k : String) (v : StVal) :
    (st.set k v).get? k = some v := by
  simp [Store.set, Store.get?]

theorem Store.get?_set_ne (st : Store) (k k' : String) (v : StVal) (h : k' ≠ k) :
    (st.set k v).get? k' = st.get? k' := by
  simp [Store.set, Store.get?, Ne.symm h, Store.get?_del_ne st k k' h]

/-- The two browser storage areas plus their availability. -/
structure StoreState where
  ls : Store
  ss : Store
  avail : Bool
deriving DecidableEq, Repr

/-- Environment inputs read by the client during one logical request. -/
structure Env where
  mobile : Bool
  online : Bool
  now : Nat
deriving DecidableEq, Repr

/-- JavaScript truthiness of a string-or-null value (`null`, `undefined`
and `""` are falsy). -/
def truthy : Option String → Bool
  | none => false
  | some v => v ≠ ""

/-- utils.js `getAuthToken`: localStorage first, sessionStorage fallback on
mobile; storage failures are caught and yield null. -/
def getAuthToken (env : Env) (st : StoreState) : Option String :=
  if st.avail then
    let token := st.ls.getStr "token"
    if !(truthy token) && env.mobile then st.ss.getStr "token" else token
  else none

/-- utils.js `setAuthToken`: a truthy token is stored (also in
sessionStorage on mobile); a falsy one removes the key from both areas.
Storage failures are caught and leave the state unchanged. -/
def setAuthToken (env : Env) (token : Option String) (st : StoreState) : StoreState :=
  if st.avail then
    if truthy token then
      { st with
        ls := st.ls.set "token" (.s (token.getD ""))
        ss := if env.mobile then st.ss.set "token" (.s (token.getD "")) else st.ss }
    else
      { st with ls := st.ls.del "token", ss := st.ss.del "token" }
  else st

/-- utils.js `isAuthenticated`. -/
def isAuthenticated (env : Env) (st : StoreState) : Bool :=
  truthy (getAuthToken env st)

/-- utils.js `clearAuth`: removes token and user from both areas; storage
failures are caught and leave the state unchanged. -/
def clearAuth (st : StoreState) : StoreState :=
  if st.avail then
    { st with
      ls := (st.ls.del "token").del "user"
      ss := (st.ss.del "token").del "user" }
  else st

/-- utils.js `setUser` (the user is carried in its serialized JSON form). -/
def setUser (env : Env) (user : String) (st : StoreState) : StoreState :=
  if st.avail then
    { st with
      ls := st.ls.set "user" (.s user)
      ss := if env.mobile then st.ss.set "user" (.s user) else st.ss }
  else st

/-- utils.js `getUser`: localStorage first, sessionStorage fallback on
mobile, JSON.parse of a truthy value (modelled as the identity), null
otherwise; storage failures are caught and yield null. -/
def getUser (env : Env) (st : StoreState) : Option String :=
  if st.avail then
    let user := st.ls.getStr "user"
    let user := if !(truthy user) && env.mobile then st.ss.getStr "user" else user
    if truthy user then user else none
  else none

/-- HTTP methods as axios normalizes them (lowercased). -/
inductive Method where
  | get | post | put | delete | patch
deriving DecidableEq, Repr

def Method.str : Method → String
  | .get => "get"
  | .post => "post"
  | .put => "put"
  | .delete => "delete"
  | .patch => "patch"

/-- JS `String.prototype.includes`. -/
def includesSub (needle hay : String) : Bool :=
  decide (needle.data <:+: hay.data)

/-- App.js: `config.url.includes("/auth/")`. -/
def isAuthEndpoint (url : String) : Bool :=
  includesSub "/auth/" url

/-- App.js: the localStorage key `api-cache-<method>-<url>`. -/
def cacheKey (m : Method) (url : String) : String :=
  "api-cache-" ++ (m.str ++ ("-" ++ url))

/-- 24 hours in milliseconds, the cache freshness bound. -/
def dayMs : Nat := 24 * 60 * 60 * 1000

/-- An axios-style error object, as the interceptors inspect it:
`code`, optional `response` with `(data, status)`, `message`, and the
flags set by the offline branch of the request interceptor. -/
structure Err where
  code : Option String
  response : Option (String × Nat)
  message : String
  isOfflineCache : Bool
  isOffline : Bool
deriving DecidableEq, Repr

/-- App.js `retryConfig.retryCondition`. -/
def retryCond (e : Err) : Bool :=
  e.code = some "NETWORK_ERROR" || e.code = some "TIMEOUT" ||
    (match e.response with
     | some (_, status) => decide (500 ≤ status)
     | none => false)

/-- The outbound request as it leaves the request interceptor. -/
structure Config where
  method : Method
  url : String
  authHeader : Option String
deriving DecidableEq, Repr

/-- The Authorization header the request interceptor attaches:
`Bearer <token>` whenever `getAuthToken()` is truthy. -/
def authHdr (env : Env) (st : StoreState) : Option String :=
  match getAuthToken env st with
  | some t => if t ≠ "" then some ("Bearer " ++ t) else none
  | none => none

/-- Result of the request interceptor: forward the config to dispatch, or
short-circuit with a rejection. -/
inductive ReqStep where
  | proceed (cfg : Config)
  | reject (e : Err)
deriving DecidableEq, Repr

/-- The rejection `\x7bmessage, isOffline: true\x7d` of the offline branch. -/
def offlineErr : Err :=
  { code := none, response := none
    message := "No internet connection and no cached data available"
    isOfflineCache := false, isOffline := true }

/-- The exception a raw `localStorage.getItem` throws when storage is
unavailable; the request interceptor does not catch it, so axios turns it
into a rejection carrying no config. -/
def storageExn : Err :=
  { code := none, response := none, message := "Storage not available"
    isOfflineCache := false, isOffline := false }

/-- The rejection `\x7bresponse: \x7bdata, status: 200\x7d, isOfflineCache: true\x7d`
used to tunnel a fresh cache hit through the error path. -/
def offlineCacheErr (d : String) : Err :=
  { code := none, response := some (d, 200)
    message := "Offline cached response"
    isOfflineCache := true, isOffline := false }

/-- App.js request interceptor.  The Authorization header is attached
first; then, when offline and the url is not an auth endpoint, the cache
is consulted and the request short-circuits (fresh hit or offline error).
An `api-cache-` key holding a non-entry value behaves like a miss (its
parse yields no usable timestamp and the freshness test fails). -/
def interceptRequest (env : Env) (m : Method) (url : String) (st : StoreState) : ReqStep :=
  if !env.online && !(isAuthEndpoint url) then
    if st.avail then
      match st.ls.get? (cacheKey m url) with
      | some (.entry d ts) =>
          if env.now - ts < dayMs then .reject (offlineCacheErr d)
          else .reject offlineErr
      | _ => .reject offlineErr
    else .reject storageExn
  else .proceed { method := m, url := url, authHeader := authHdr env st }

/-- Outcome of one network dispatch: a fulfilled axios response (2xx) or
an axios error (network failure, timeout, or non-2xx status). -/
inductive DispatchOutcome where
  | ok (data : String) (status : Nat)
  | err (e : Err)
deriving DecidableEq, Repr

/-- What the caller of the axios instance observes. -/
inductive Outcome where
  | success (data : String) (status : Nat)
  | failure (e : Err)
deriving DecidableEq, Repr

/-- App.js response interceptor, success path: a GET response received
while online is written to the cache; a storage failure is caught and
swallowed. -/
def cacheWrite (env : Env) (m : Method) (url : String) (d : String) (st : StoreState) : StoreState :=
  if m = Method.get ∧ env.online = true then
    if st.avail then { st with ls := st.ls.set (cacheKey m url) (.entry d env.now) }
    else st
  else st

/-- Everything one call into the axios instance produces: the outcome, the
storage state, the value of the shared `retryConfig.retries` counter after
the call, the number of network dispatches, and the delays (ms) slept
before each retry. -/
structure SendResult where
  outcome : Outcome
  st : StoreState
  retriesLeft : Nat
  attempts : Nat
  delays : List Nat
deriving DecidableEq, Repr

/-- One call into the axios instance, interceptors included.  `r` is the
current value of the shared `retryConfig.retries` counter (module-level
state: `config.retry` aliases `retryConfig`, and the retry branch mutates
it in place), `idx` indexes dispatch attempts into `net`.
A rejection produced by the request interceptor carries no `config`
field, so the retry branch never fires for it; a dispatch error carries
the config, so after the `isOfflineCache` test the interceptor retries
while the shared counter is positive and the error is transient,
sleeping `retryDelay = 1000` ms and decrementing the counter. -/
def sendAux (env : Env) (net : Nat → DispatchOutcome) (m : Method) (url : String) :
    Nat → Nat → StoreState → SendResult
  | r, idx, st =>
    match interceptRequest env m url st with
    | .reject e =>
        if e.isOfflineCache then
          match e.response with
          | some (d, status) => ⟨Outcome.success d status, st, r, 0, []⟩
          | none => ⟨Outcome.failure e, st, r, 0, []⟩
        else ⟨Outcome.failure e, st, r, 0, []⟩
    | .proceed _ =>
        match net idx with
        | .ok d status =>
            ⟨Outcome.success d status, cacheWrite env m url d st, r, 1, []⟩
        | .err e =>
            if e.isOfflineCache then
              match e.response with
              | some (d, status) => ⟨Outcome.success d status, st, r, 1, []⟩
              | none => ⟨Outcome.failure e, st, r, 1, []⟩
            else
              match r with
              | 0 => ⟨Outcome.failure e, st, 0, 1, []⟩
              | r' + 1 =>
                  if retryCond e then
                    let res := sendAux env net m url r' (idx + 1) st
                    ⟨res.outcome, res.st, res.retriesLeft, res.attempts + 1,
                      1000 :: res.delays⟩
                  else ⟨Outcome.failure e, st, r' + 1, 1, []⟩

/-- One call into the axios instance, starting at dispatch index 0. -/
def send (env : Env) (net : Nat → DispatchOutcome) (m : Method) (url : String)
    (r : Nat) (st : StoreState) : SendResult :=
  sendAux env net m url r 0 st
theorem cacheKey_ne_token (m : Method) (url : String) : cacheKey m url ≠ "token" := by
  intro h
  have h2 := congrArg String.length h
  have e1 : ("api-cache-" : String).length = 10 := rfl
  have e2 : ("-" : String).length = 1 := rfl
  have e3 : ("token" : String).length = 5 := rfl
  simp [cacheKey, String.length_append, e1, e2, e3] at h2
  omega

theorem cacheKey_ne_user (m : Method) (url : String) : cacheKey m url ≠ "user" := by
  intro h
  have h2 := congrArg String.length h
  have e1 : ("api-cache-" : String).length = 10 := rfl
  have e2 : ("-" : String).length = 1 := rfl
  have e3 : ("user" : String).length = 4 := rfl
  simp [cacheKey, String.length_append, e1, e2, e3] at h2
  omega

theorem interceptRequest_proceed {env : Env} {m : Method} {url : String} {st : StoreState}
    {cfg : Config} (h : interceptRequest env m url st = ReqStep.proceed cfg) :
    cfg = { method := m, url := url, authHeader := authHdr env st } := by
  unfold interceptRequest at h
  split at h
  · split at h
    · split at h <;> simp_all
      split at h <;> simp_all
    · simp_all
  · exact (ReqStep.proceed.injEq _ _).mp h |>.symm

theorem cacheWrite_frame (env : Env) (m : Method) (url d : String) (st : StoreState) :
    (cacheWrite env m url d st).ss = st.ss ∧
    (cacheWrite env m url d st).avail = st.avail ∧
    ∀ k, k ≠ cacheKey m url → (cacheWrite env m url d st).ls.get? k = st.ls.get? k := by
  unfold cacheWrite
  split
  · split
    · exact ⟨rfl, rfl, fun k hk => Store.get?_set_ne _ _ _ _ hk⟩
    · exact ⟨rfl, rfl, fun _ _ => rfl⟩
  · exact ⟨rfl, rfl, fun _ _ => rfl⟩

theorem sendAux_frame (env : Env) (net : Nat → DispatchOutcome) (m : Method) (url : String) :
    ∀ (r idx : Nat) (st : StoreState),
      (sendAux env net m url r idx st).st.ss = st.ss ∧
      (sendAux env net m url r idx st).st.avail = st.avail ∧
      ∀ k, k ≠ cacheKey m url →
        (sendAux env net m url r idx st).st.ls.get? k = st.ls.get? k := by
  intro r
  induction r with
  | zero =>
      intro idx st
      unfold sendAux
      split
      · split
        · split <;> exact ⟨rfl, rfl, fun _ _ => rfl⟩
        · exact ⟨rfl, rfl, fun _ _ => rfl⟩
      · split
        · exact cacheWrite_frame env m url _ st
        · split
          · split <;> exact ⟨rfl, rfl, fun _ _ => rfl⟩
          · split
            · exact ⟨rfl, rfl, fun _ _ => rfl⟩
            · split
              · rename_i r2 heq hcond
                exact absurd heq (by omega)
              · exact ⟨rfl, rfl, fun _ _ => rfl⟩
  | succ r' ih =>
      intro idx st
      unfold sendAux
      split
      · split
        · split <;> exact ⟨rfl, rfl, fun _ _ => rfl⟩
        · exact ⟨rfl, rfl, fun _ _ => rfl⟩
      · split
        · exact cacheWrite_frame env m url _ st
        · split
          · split <;> exact ⟨rfl, rfl, fun _ _ => rfl⟩
          · split
            · exact ⟨rfl, rfl, fun _ _ => rfl⟩
            · rename_i r2 heq
              have hr : r2 = r' := by omega
              subst hr
              split
              · simp only
                exact ih (idx + 1) st
              · exact ⟨rfl, rfl, fun _ _ => rfl⟩

/- Concrete fixtures for witnesses and counterexamples. -/

/-- Desktop browser, online, clock at 5 ms. -/
def envOnD : Env := ⟨false, true, 5⟩

/-- Desktop browser, offline, clock at 1000 ms. -/
def envOffD : Env := ⟨false, false, 1000⟩

/-- Empty, available storage. -/
def stEmpty : StoreState := ⟨[], [], true⟩

/-- Available storage holding the token `T` in localStorage. -/
def stTok : StoreState := ⟨[("token", StVal.s "T")], [], true⟩

/-- A network that always answers 200 with payload `D`. -/
def netOkD : Nat → DispatchOutcome := fun _ => .ok "D" 200

/-- An axios timeout error (transient per `retryConfig.retryCondition`). -/
def errTimeout : Err := ⟨some "TIMEOUT", none, "timeout of 30000ms exceeded", false, false⟩

/-- An axios network error (transient per `retryConfig.retryCondition`). -/
def errNet : Err := ⟨some "NETWORK_ERROR", none, "Network Error", false, false⟩

/-- A network whose every dispatch times out. -/
def netFailT : Nat → DispatchOutcome := fun _ => .err errTimeout

/-- A network whose every dispatch fails at the network level. -/
def netFailN : Nat → DispatchOutcome := fun _ => .err errNet

/-- Claim C1, counterexample: the round-trip claim fails for GET requests to
authentication endpoints.  A GET to /auth/me succeeds online and its payload
is cached, yet the same GET issued while offline within 24 hours of the cache
write is dispatched to the network (and here fails after 4 attempts) instead
of returning the cached payload as a synthetic 200, because auth-endpoint
urls skip offline interception entirely. -/
theorem c1_counterexample :
    (send envOnD netOkD Method.get "/auth/me" 3 stEmpty).outcome
        = Outcome.success "D" 200 ∧
    (send envOnD netOkD Method.get "/auth/me" 3 stEmpty).st.ls.get?
        (cacheKey Method.get "/auth/me") = some (StVal.entry "D" 5) ∧
    envOffD.now - 5 < dayMs ∧
    (send envOffD netFailN Method.get "/auth/me" 3
        (send envOnD netOkD Method.get "/auth/me" 3 stEmpty).st).outcome
      ≠ Outcome.success "D" 200 ∧
    (send envOffD netFailN Method.get "/auth/me" 3
        (send envOnD netOkD Method.get "/auth/me" 3 stEmpty).st).attempts = 4 := by
  decide

/-- Claim C1 (amended): for every GET request to a non-authentication path
that completes successfully while the probe reports online and storage is
available, a later GET to the same method+path issued while the probe
reports offline and within 24 hours of the cache write returns the
previously cached payload unchanged, as a synthetic success with status 200
and with no network dispatch. -/
theorem c1_offline_roundtrip (envOn envOff : Env) (net1 net2 : Nat → DispatchOutcome)
    (url d : String) (status : Nat) (r1 r2 : Nat) (st : StoreState)
    (hOn : envOn.online = true) (hOff : envOff.online = false)
    (hAuth : isAuthEndpoint url = false) (hAvail : st.avail = true)
    (hNet : net1 0 = DispatchOutcome.ok d status)
    (hFresh : envOff.now - envOn.now < dayMs) :
    (send envOff net2 Method.get url r2 (send envOn net1 Method.get url r1 st).st).outcome
      = Outcome.success d 200 ∧
    (send envOff net2 Method.get url r2 (send envOn net1 Method.get url r1 st).st).attempts
      = 0 := by
  have hst1 : (send envOn net1 Method.get url r1 st).st
      = { st with ls := st.ls.set (cacheKey Method.get url) (.entry d envOn.now) } := by
    unfold send sendAux
    simp [interceptRequest, hOn, hNet, cacheWrite, hAvail]
  rw [hst1]
  unfold send sendAux
  simp [interceptRequest, hOff, hAuth, hAvail, Store.get?_set_same, hFresh, offlineCacheErr]

/-- Claim C1, witness: the amended round trip at a concrete input. -/
theorem c1_offline_roundtrip_witness :
    envOnD.online = true ∧ envOffD.online = false ∧
    isAuthEndpoint "/api/dashboard/stats" = false ∧ stEmpty.avail = true ∧
    netOkD 0 = DispatchOutcome.ok "D" 200 ∧ envOffD.now - envOnD.now < dayMs ∧
    (send envOffD netFailN Method.get "/api/dashboard/stats" 3
        (send envOnD netOkD Method.get "/api/dashboard/stats" 3 stEmpty).st).outcome
      = Outcome.success "D" 200 :=
  ⟨rfl, rfl, by decide, rfl, rfl, by decide,
    (c1_offline_roundtrip envOnD envOffD netOkD netFailN "/api/dashboard/stats" "D" 200 3 3
      stEmpty rfl rfl (by decide) rfl rfl (by decide)).1⟩

/-- Claim C2: on a fresh client, a request whose every dispatch fails with a
transient condition is attempted exactly 4 times (1 initial + 3 retries)
with a fixed 1000 ms delay before each retry, and the failure is surfaced
only after the budget is exhausted — but the claimed per-request
independence fails: `config.retry` aliases the module-level `retryConfig`
object and the retry branch decrements its `retries` field in place, so a
second all-transient request issued after the first is attempted only
once. -/
theorem c2_retry_budget :
    (send envOnD netFailT Method.get "/api/a" 3 stEmpty).attempts = 4 ∧
    (send envOnD netFailT Method.get "/api/a" 3 stEmpty).delays = [1000, 1000, 1000] ∧
    (send envOnD netFailT Method.get "/api/a" 3 stEmpty).outcome
      = Outcome.failure errTimeout ∧
    (send envOnD netFailT Method.get "/api/a" 3 stEmpty).retriesLeft = 0 ∧
    (send envOnD netFailT Method.get "/api/b"
        (send envOnD netFailT Method.get "/api/a" 3 stEmpty).retriesLeft
        (send envOnD netFailT Method.get "/api/a" 3 stEmpty).st).attempts = 1 ∧
    (send envOnD netFailT Method.get "/api/b"
        (send envOnD netFailT Method.get "/api/a" 3 stEmpty).retriesLeft
        (send envOnD netFailT Method.get "/api/a" 3 stEmpty).st).outcome
      = Outcome.failure errTimeout := by
  decide

/-- Claim C3, counterexample: with a token in storage, a request targeting
the authentication endpoint /auth/login still carries the bearer
Authorization header, contradicting the claimed auth-endpoint exemption:
the `isAuthEndpoint` test only skips offline interception, the token is
attached unconditionally. -/
theorem c3_counterexample :
    isAuthEndpoint "/auth/login" = true ∧
    truthy (getAuthToken envOnD stTok) = true ∧
    interceptRequest envOnD Method.post "/auth/login" stTok
      = ReqStep.proceed ⟨Method.post, "/auth/login", some "Bearer T"⟩ := by
  decide

/-- Claim C3 (amended): whenever a truthy token is present in storage, it is
attached as a bearer Authorization header to every outbound request that
reaches dispatch, authentication endpoints included. -/
theorem c3_token_attached (env : Env) (st : StoreState) (m : Method) (url t : String)
    (cfg : Config) (hTok : getAuthToken env st = some t) (hNe : t ≠ "")
    (hPr : interceptRequest env m url st = ReqStep.proceed cfg) :
    cfg.authHeader = some ("Bearer " ++ t) := by
  have hc := interceptRequest_proceed hPr
  subst hc
  simp [authHdr, hTok, hNe]

/-- Claim C3, witness: the amended header-attach property at a concrete
input (an auth-endpoint request). -/
theorem c3_token_attached_witness :
    getAuthToken envOnD stTok = some "T" ∧ "T" ≠ "" ∧
    interceptRequest envOnD Method.post "/auth/login" stTok
      = ReqStep.proceed ⟨Method.post, "/auth/login", some "Bearer T"⟩ ∧
    (⟨Method.post, "/auth/login", some "Bearer T"⟩ : Config).authHeader
      = some ("Bearer " ++ "T") :=
  ⟨by decide, by decide, by decide,
    c3_token_attached envOnD stTok Method.post "/auth/login" "T" _
      (by decide) (by decide) (by decide)⟩

/-- Claim C4: a request issued while the probe reports offline to a
non-authentication path, with storage available and either no cache entry
under the derived method+path key or an entry at least 24 hours old, fails
with the offline-no-cache error (message "No internet connection and no
cached data available", isOffline flag), performs no network dispatch, and
leaves storage unchanged. -/
theorem c4_offline_no_cache (env : Env) (net : Nat → DispatchOutcome) (m : Method)
    (url : String) (r : Nat) (st : StoreState)
    (hOff : env.online = false) (hAuth : isAuthEndpoint url = false)
    (hAvail : st.avail = true)
    (hMiss : st.ls.get? (cacheKey m url) = none ∨
      ∃ d ts, st.ls.get? (cacheKey m url) = some (.entry d ts) ∧ dayMs ≤ env.now - ts) :
    (send env net m url r st).outcome = Outcome.failure offlineErr ∧
    (send env net m url r st).attempts = 0 ∧
    (send env net m url r st).st = st := by
  unfold send sendAux
  rcases hMiss with hm | ⟨d, ts, hm, hstale⟩
  · simp [interceptRequest, hOff, hAuth, hAvail, hm, offlineErr]
  · simp [interceptRequest, hOff, hAuth, hAvail, hm, offlineErr, Nat.not_lt.mpr hstale]

/-- Claim C4, witness: the offline-no-cache failure at a concrete input. -/
theorem c4_offline_no_cache_witness :
    envOffD.online = false ∧ isAuthEndpoint "/api/dashboard/stats" = false ∧
    stEmpty.avail = true ∧
    stEmpty.ls.get? (cacheKey Method.get "/api/dashboard/stats") = none ∧
    (send envOffD netOkD Method.get "/api/dashboard/stats" 3 stEmpty).outcome
      = Outcome.failure offlineErr ∧
    (send envOffD netOkD Method.get "/api/dashboard/stats" 3 stEmpty).attempts = 0 :=
  ⟨rfl, by decide, rfl, by decide,
    (c4_offline_no_cache envOffD netOkD Method.get "/api/dashboard/stats" 3 stEmpty
      rfl (by decide) rfl (Or.inl (by decide))).1,
    (c4_offline_no_cache envOffD netOkD Method.get "/api/dashboard/stats" 3 stEmpty
      rfl (by decide) rfl (Or.inl (by decide))).2.1⟩

/-- Claim C5: for every request whose url is an authentication endpoint, the
request interceptor always forwards the config to dispatch (the
offline-interception branch is never taken), and at least one network
dispatch occurs — whatever the connectivity, storage state, retry budget
and network behaviour. -/
theorem c5_auth_endpoint_dispatched (env : Env) (net : Nat → DispatchOutcome) (m : Method)
    (url : String) (r : Nat) (st : StoreState) (hAuth : isAuthEndpoint url = true) :
    interceptRequest env m url st
      = ReqStep.proceed ⟨m, url, authHdr env st⟩ ∧
    1 ≤ (send env net m url r st).attempts := by
  have hPr : interceptRequest env m url st
      = ReqStep.proceed ⟨m, url, authHdr env st⟩ := by
    simp [interceptRequest, hAuth]
  refine ⟨hPr, ?_⟩
  unfold send sendAux
  rw [hPr]
  cases hnet : net 0 with
  | ok d status => simp
  | err e =>
      simp only []
      repeat' split
      all_goals simp

/-- Claim C5, witness: an offline request to /auth/me is dispatched. -/
theorem c5_auth_endpoint_dispatched_witness :
    isAuthEndpoint "/auth/me" = true ∧
    1 ≤ (send envOffD netFailN Method.get "/auth/me" 3 stEmpty).attempts :=
  ⟨by decide,
    (c5_auth_endpoint_dispatched envOffD netFailN Method.get "/auth/me" 3 stEmpty
      (by decide)).2⟩

theorem sendAux_st_nonget (env : Env) (net : Nat → DispatchOutcome) (m : Method)
    (url : String) (h : m ≠ Method.get) :
    ∀ (r idx : Nat) (st : StoreState), (sendAux env net m url r idx st).st = st := by
  intro r
  induction r with
  | zero =>
      intro idx st
      unfold sendAux
      split
      · split
        · split <;> rfl
        · rfl
      · split
        · simp [cacheWrite, h]
        · split
          · split <;> rfl
          · split
            · rfl
            · split
              · rename_i r2 heq hcond
                exact absurd heq (by omega)
              · rfl
  | succ r' ih =>
      intro idx st
      unfold sendAux
      split
      · split
        · split <;> rfl
        · rfl
      · split
        · simp [cacheWrite, h]
        · split
          · split <;> rfl
          · split
            · rfl
            · rename_i r2 heq
              have hr : r2 = r' := by omega
              subst hr
              split
              · simp only
                exact ih (idx + 1) st
              · rfl

/-- Claim C6: a non-GET request never writes a cache entry: whatever the
connectivity, storage state, retry budget and network behaviour, the whole
storage state after the request equals the storage state before it. -/
theorem c6_nonget_no_cache_write (env : Env) (net : Nat → DispatchOutcome) (m : Method)
    (url : String) (r : Nat) (st : StoreState) (h : m ≠ Method.get) :
    (send env net m url r st).st = st :=
  sendAux_st_nonget env net m url h r 0 st

/-- Claim C6, witness: a successful online POST leaves storage unchanged. -/
theorem c6_nonget_no_cache_write_witness :
    Method.post ≠ Method.get ∧
    (send envOnD netOkD Method.post "/api/tutor/chat" 3 stTok).st = stTok :=
  ⟨by decide, c6_nonget_no_cache_write envOnD netOkD Method.post "/api/tutor/chat" 3 stTok
    (by decide)⟩

/-- Claim C7: after clearAuth, getAuthToken returns an absent value, and any
request the interceptor forwards to dispatch carries no Authorization
header. -/
theorem c7_clearAuth_no_token (env : Env) (st : StoreState) (m : Method) (url : String)
    (_hTok : truthy (getAuthToken env st) = true) :
    getAuthToken env (clearAuth st) = none ∧
    ∀ cfg : Config, interceptRequest env m url (clearAuth st) = ReqStep.proceed cfg →
      cfg.authHeader = none := by
  have hGA : getAuthToken env (clearAuth st) = none := by
    by_cases hav : st.avail
    · simp [clearAuth, hav, getAuthToken, Store.getStr,
        Store.get?_del_ne (st.ls.del "token") "user" "token" (by decide),
        Store.get?_del_ne (st.ss.del "token") "user" "token" (by decide),
        Store.get?_del_same]
    · simp [clearAuth, hav, getAuthToken]
  refine ⟨hGA, ?_⟩
  intro cfg hPr
  have hc := interceptRequest_proceed hPr
  subst hc
  simp [authHdr, hGA]

/-- Claim C7, witness: clearing a stored token at a concrete input. -/
theorem c7_clearAuth_no_token_witness :
    truthy (getAuthToken envOnD stTok) = true ∧
    getAuthToken envOnD (clearAuth stTok) = none ∧
    (interceptRequest envOnD Method.get "/api/x" (clearAuth stTok)
        = ReqStep.proceed ⟨Method.get, "/api/x", none⟩ →
      (⟨Method.get, "/api/x", none⟩ : Config).authHeader = none) :=
  ⟨by decide,
    (c7_clearAuth_no_token envOnD stTok Method.get "/api/x" (by decide)).1,
    (c7_clearAuth_no_token envOnD stTok Method.get "/api/x" (by decide)).2 _⟩

/-- Claim C8: with storage unavailable, every utils.js accessor catches the
failure and returns its fallback (null for getters) with the state
unchanged instead of throwing, and the HTTP client still returns a
successful online GET response to the caller even though writing its cache
entry fails. -/
theorem c8_storage_tolerant (env : Env) (net : Nat → DispatchOutcome) (url : String)
    (r : Nat) (st : StoreState) (tok : Option String) (u d : String) (status : Nat)
    (hAvail : st.avail = false) (hOn : env.online = true)
    (hNet : net 0 = DispatchOutcome.ok d status) :
    setAuthToken env tok st = st ∧
    getAuthToken env st = none ∧
    clearAuth st = st ∧
    setUser env u st = st ∧
    getUser env st = none ∧
    (send env net Method.get url r st).outcome = Outcome.success d status ∧
    (send env net Method.get url r st).st = st := by
  have hsend : send env net Method.get url r st
      = ⟨Outcome.success d status, st, r, 1, []⟩ := by
    unfold send sendAux
    simp [interceptRequest, hOn, hNet, cacheWrite, hAvail]
  refine ⟨?_, ?_, ?_, ?_, ?_, ?_, ?_⟩ <;>
    simp [setAuthToken, getAuthToken, clearAuth, setUser, getUser, hAvail, hsend]

/-- Claim C8, witness: unavailable storage at a concrete input. -/
theorem c8_storage_tolerant_witness :
    (⟨[("token", StVal.s "T")], [], false⟩ : StoreState).avail = false ∧
    envOnD.online = true ∧ netOkD 0 = DispatchOutcome.ok "D" 200 ∧
    getAuthToken envOnD ⟨[("token", StVal.s "T")], [], false⟩ = none ∧
    (send envOnD netOkD Method.get "/api/x" 3 ⟨[("token", StVal.s "T")], [], false⟩).outcome
      = Outcome.success "D" 200 ∧
    (send envOnD netOkD Method.get "/api/x" 3 ⟨[("token", StVal.s "T")], [], false⟩).st
      = ⟨[("token", StVal.s "T")], [], false⟩ :=
  ⟨rfl, rfl, rfl,
    (c8_storage_tolerant envOnD netOkD "/api/x" 3 ⟨[("token", StVal.s "T")], [], false⟩
      none "u" "D" 200 rfl rfl rfl).2.1,
    (c8_storage_tolerant envOnD netOkD "/api/x" 3 ⟨[("token", StVal.s "T")], [], false⟩
      none "u" "D" 200 rfl rfl rfl).2.2.2.2.2.1,
    (c8_storage_tolerant envOnD netOkD "/api/x" 3 ⟨[("token", StVal.s "T")], [], false⟩
      none "u" "D" 200 rfl rfl rfl).2.2.2.2.2.2⟩

/-- Claim C9: a request mutates localStorage only at the derived
api-cache-<method>-<path> key: every other key — in particular the token
and user fields of the AuthSession — reads the same after the request as
before, sessionStorage and availability are untouched, and getAuthToken,
getUser and isAuthenticated are unchanged, whatever the outcome. -/
theorem c9_send_frame (env : Env) (net : Nat → DispatchOutcome) (m : Method)
    (url : String) (r : Nat) (st : StoreState) (k : String)
    (hk : k ≠ cacheKey m url) :
    (send env net m url r st).st.ls.get? k = st.ls.get? k ∧
    (send env net m url r st).st.ls.get? "token" = st.ls.get? "token" ∧
    (send env net m url r st).st.ls.get? "user" = st.ls.get? "user" ∧
    (send env net m url r st).st.ss = st.ss ∧
    (send env net m url r st).st.avail = st.avail ∧
    getAuthToken env (send env net m url r st).st = getAuthToken env st ∧
    getUser env (send env net m url r st).st = getUser env st ∧
    isAuthenticated env (send env net m url r st).st = isAuthenticated env st := by
  obtain ⟨hss, hav, hls⟩ := sendAux_frame env net m url r 0 st
  have htok := hls "token" (Ne.symm (cacheKey_ne_token m url))
  have huser := hls "user" (Ne.symm (cacheKey_ne_user m url))
  have hga : getAuthToken env (send env net m url r st).st = getAuthToken env st := by
    simp [getAuthToken, send, hav, hss, Store.getStr, htok]
  have hgu : getUser env (send env net m url r st).st = getUser env st := by
    simp [getUser, send, hav, hss, Store.getStr, huser]
  exact ⟨hls k hk, htok, huser, hss, hav, hga, hgu, by simp [isAuthenticated, hga, truthy]⟩

/-- Claim C9, witness: a cached online GET leaves the AuthSession intact. -/
theorem c9_send_frame_witness :
    ("token" : String) ≠ cacheKey Method.get "/api/x" ∧
    getAuthToken envOnD (send envOnD netOkD Method.get "/api/x" 3 stTok).st
      = getAuthToken envOnD stTok :=
  ⟨by decide,
    (c9_send_frame envOnD netOkD Method.get "/api/x" 3 stTok "token" (by decide)).2.2.2.2.2.1⟩

/-- Claim C10: calling setAuthToken with a falsy token (null, undefined or
the empty string) does not store it: afterwards getAuthToken returns an
absent value and isAuthenticated returns false, and when storage is
available the token key is absent from both storage areas. -/
theorem c10_setAuthToken_falsy (env : Env) (st : StoreState) (tok : Option String)
    (hf : truthy tok = false) :
    getAuthToken env (setAuthToken env tok st) = none ∧
    isAuthenticated env (setAuthToken env tok st) = false ∧
    (st.avail = true →
      (setAuthToken env tok st).ls.get? "token" = none ∧
      (setAuthToken env tok st).ss.get? "token" = none) := by
  by_cases hav : st.avail
  · have h1 : setAuthToken env tok st
        = { st with ls := st.ls.del "token", ss := st.ss.del "token" } := by
      simp [setAuthToken, hav, hf]
    have hga : getAuthToken env (setAuthToken env tok st) = none := by
      simp [h1, getAuthToken, hav, Store.getStr, Store.get?_del_same]
    exact ⟨hga, by simp [isAuthenticated, hga, truthy],
      fun _ => by simp [h1, Store.get?_del_same]⟩
  · have h1 : setAuthToken env tok st = st := by simp [setAuthToken, hav]
    have hga : getAuthToken env (setAuthToken env tok st) = none := by
      simp [h1, getAuthToken, hav]
    exact ⟨hga, by simp [isAuthenticated, hga, truthy], fun h => absurd h hav⟩

/-- Claim C10, witness: setAuthToken with null at a concrete input. -/
theorem c10_setAuthToken_falsy_witness :
    truthy none = false ∧
    getAuthToken envOnD (setAuthToken envOnD none stTok) = none ∧
    isAuthenticated envOnD (setAuthToken envOnD none stTok) = false ∧
    (stTok.avail = true →
      (setAuthToken envOnD none stTok).ls.get? "token" = none ∧
      (setAuthToken envOnD none stTok).ss.get? "token" = none) :=
  ⟨rfl,
    (c10_setAuthToken_falsy envOnD stTok none rfl).1,
    (c10_setAuthToken_falsy envOnD stTok none rfl).2.1,
    (c10_setAuthToken_falsy envOnD stTok none rfl).2.2⟩
